import Mathlib

/-
Shallow embedding of the document-qa-api repository (FastAPI document Q&A
service) and proofs about its specified behaviour.

Modelling conventions:
- Python strings are modelled as Lean `String` (sequences of code points);
  where positional slicing matters (the context reducer) we work on
  `List Char`, which is the same data with structural recursion available.
- The in-memory `DocumentStore` dictionary is modelled as an association
  list with Python-dict semantics: assignment replaces an existing key in
  place or appends a fresh one, `del` removes the key, `in` tests presence.
- Decoded JSON values (the dict returned by `llm_service.generate_json`)
  are modelled by the inductive `Json`.  JSON numbers are modelled as `Int`;
  no claim depends on non-integral numbers.
- Nondeterministic/external effects are explicit parameters: the generated
  document id (`str(uuid.uuid4())[:8]` in `document_store.py`), the
  `datetime.utcnow()` timestamp, the elapsed wall-clock time, and the
  outcome of the model call.
- HTTP handler results are `Except Nat α`: `.error s` is an HTTPException
  with status code `s`.
-/

namespace DocQA

/-- Decoded JSON values, as produced by parsing the raw model output.
Mirrors the dynamic dict/list/str/bool/number values flowing out of
`llm_service.generate_json` into `main.py`'s `ask_question`. -/
inductive Json where
  | str (s : String)
  | bool (b : Bool)
  | num (n : Int)
  | arr (elems : List Json)
  | obj (fields : List (String × Json))

/-- The `Confidence` enum of `src/models.py` lines 73-76. -/
inductive Confidence where
  | high
  | medium
  | low
deriving Repr, DecidableEq

/-- The string value of each `Confidence` member (`models.py`: a `str` Enum
whose values are "high", "medium", "low"). -/
def Confidence.toString : Confidence → String
  | .high => "high"
  | .medium => "medium"
  | .low => "low"

/-- Python `Confidence(value)` (enum lookup by value): returns the member
whose value equals the argument, otherwise raises `ValueError` (modelled as
`none`).  A non-string argument never equals a member value. -/
def confidenceOfJson : Json → Option Confidence
  | .str s =>
      if s = "high" then some .high
      else if s = "medium" then some .medium
      else if s = "low" then some .low
      else none
  | _ => none

/-- Pydantic validation of a `str` field (`AnswerResponse.answer` and the
elements of `relevant_quotes` in `models.py`): accepts exactly strings;
pydantic v2 does not coerce numbers or booleans to `str`. -/
def pydanticStr : Json → Option String
  | .str s => some s
  | _ => none

/-- Validation of a list of strings, element by element (pydantic
`List[str]`). -/
def strList : List Json → Option (List String)
  | [] => some []
  | v :: rest =>
      match pydanticStr v, strList rest with
      | some s, some t => some (s :: t)
      | _, _ => none

/-- Pydantic validation of a `List[str]` field
(`AnswerResponse.relevant_quotes`): accepts a sequence whose elements are
all strings. -/
def pydanticStrList : Json → Option (List String)
  | .arr elems => strList elems
  | _ => none

/-- Pydantic validation of a `bool` field (`AnswerResponse.not_found`),
including pydantic v2's lax coercions from 0/1 and the documented boolean
string spellings.  Claims proved below only exercise actual booleans and
absence; the coercion cases are included for fidelity. -/
def pydanticBool : Json → Option Bool
  | .bool b => some b
  | .num 0 => some false
  | .num 1 => some true
  | .str s =>
      let l := String.mk (s.data.map Char.toLower)
      if l ∈ (["true", "t", "yes", "y", "on", "1"] : List String) then some true
      else if l ∈ (["false", "f", "no", "n", "off", "0"] : List String) then some false
      else none
  | _ => none

/-- The four answer fields extracted from the model-output mapping by
`main.py` `ask_question` lines 190-194. -/
structure AnswerFields where
  answer : String
  confidence : Confidence
  relevant_quotes : List String
  not_found : Bool
deriving Repr, DecidableEq

/-- Embedding of `main.py` `ask_question` lines 190-199 together with the
validation performed by `Confidence(...)` and the `AnswerResponse` field
types (`models.py` lines 97-112): each field is read from the decoded
mapping with `dict.get` and a default used only when the key is absent
(`answer` -> "Unable to generate answer", `confidence` -> "low",
`relevant_quotes` -> `[]`, `not_found` -> `False`); the confidence string is
then converted with `Confidence(...)`, which raises `ValueError` for a value
outside the enum, and the remaining values are validated against the
declared field types (a pydantic `ValidationError` is a `ValueError`).
An `.error` result is a `ValueError` escaping to the handler's
`except ValueError` branch. -/
def interpretFields (result : List (String × Json)) : Except String AnswerFields :=
  match confidenceOfJson ((result.lookup "confidence").getD (Json.str "low")) with
  | none => .error "ValueError: not a valid Confidence"
  | some c =>
      match pydanticStr ((result.lookup "answer").getD (Json.str "Unable to generate answer")),
            pydanticStrList ((result.lookup "relevant_quotes").getD (Json.arr [])),
            pydanticBool ((result.lookup "not_found").getD (Json.bool false)) with
      | some a, some qs, some nf => .ok ⟨a, c, qs, nf⟩
      | _, _, _ => .error "ValidationError"

/-- Outcome of `llm_service.generate_json` as observed by the caller.
Modelled from the spec: the file `src/llm_service.py` is not part of the
sources; per spec section 4.3 the parse step decodes the raw model output
and "on decode failure (not valid structured data), fail with a
MalformedResponse condition", which in this code base is a `ValueError`
(caught by `ask_question` as 422); any other failure of the model call is a
generic exception (caught as 500); on success a decoded mapping is
returned. -/
inductive LlmOutcome where
  | ok (result : List (String × Json))
  | valueError
  | otherError

/-- A stored document's fields, as written by `DocumentStore.add`
(`document_store.py` lines 49-55). -/
structure StoredDoc where
  content : String
  title : String
  word_count : Nat
  character_count : Nat
  created_at : String
deriving Repr, DecidableEq

/-- Helper for `pySplit`: scans the characters, accumulating the current
word (reversed); whitespace ends a word, runs of whitespace produce no
empty words. -/
def wordsAux : List Char → List Char → List String
  | [], acc => if acc.isEmpty then [] else [String.mk acc.reverse]
  | c :: rest, acc =>
      if c.isWhitespace then
        if acc.isEmpty then wordsAux rest []
        else String.mk acc.reverse :: wordsAux rest []
      else wordsAux rest (c :: acc)

/-- Python `content.split()` (no separator argument): split on runs of
whitespace, discarding empty pieces.  Python additionally treats a few
rarer Unicode whitespace code points as separators; both sides of every
theorem below use this same function, so the exact separator set is
immaterial to the claims. -/
def pySplit (s : String) : List String := wordsAux s.data []

/-- The document record built by `DocumentStore.add` (`document_store.py`
lines 49-55): derived counts are computed from the content, the timestamp
is the external `datetime.utcnow().isoformat()` value. -/
def mkDoc (content title created_at : String) : StoredDoc :=
  { content := content
    title := title
    word_count := (pySplit content).length
    character_count := content.length
    created_at := created_at }

/-- The in-memory store: the `_documents` dict of `DocumentStore`, as an
association list in insertion order. -/
structure Store where
  documents : List (String × StoredDoc)
deriving Repr, DecidableEq

/-- Python dict assignment `d[k] = v`: replaces the value at an existing
key in place, otherwise appends the new key at the end. -/
def dictInsert (l : List (String × StoredDoc)) (k : String) (v : StoredDoc) :
    List (String × StoredDoc) :=
  if l.any (fun p => p.1 == k) then
    l.map (fun p => if p.1 == k then (k, v) else p)
  else
    l ++ [(k, v)]

/-- Embedding of `DocumentStore.add` (`document_store.py` lines 36-59).
The generated id `str(uuid.uuid4())[:8]` is an external nondeterministic
input `gen_id`; no collision check is performed before the dict
assignment.  Returns the id and the updated store. -/
def Store.add (s : Store) (gen_id content title created_at : String) : String × Store :=
  (gen_id, ⟨dictInsert s.documents gen_id (mkDoc content title created_at)⟩)

/-- Embedding of `DocumentStore.get` (`document_store.py` lines 61-74):
dict `.get`, `none` when the id is absent. -/
def Store.get (s : Store) (doc_id : String) : Option StoredDoc :=
  s.documents.lookup doc_id

/-- Embedding of `DocumentStore.get_content` (`document_store.py`
lines 76-79). -/
def Store.get_content (s : Store) (doc_id : String) : Option String :=
  (s.documents.lookup doc_id).map (fun d => d.content)

/-- Membership test `doc_id in self._documents`, as used by
`DocumentStore.delete`. -/
def Store.hasId (s : Store) (doc_id : String) : Bool :=
  s.documents.any (fun p => p.1 == doc_id)

/-- Embedding of `DocumentStore.delete` (`document_store.py` lines
100-113): when the id is present the entry is removed (`del`) and `True`
is returned, otherwise `False` and the store is untouched. -/
def Store.delete (s : Store) (doc_id : String) : Bool × Store :=
  if s.documents.any (fun p => p.1 == doc_id) then
    (true, ⟨s.documents.filter (fun p => p.1 != doc_id)⟩)
  else
    (false, s)

/-- Embedding of `DocumentStore.count` (`document_store.py` lines
115-117). -/
def Store.count (s : Store) : Nat :=
  s.documents.length

/-- Document metadata as returned by the upload and list endpoints
(`models.py` `DocumentMetadata`). -/
structure DocumentMetadata where
  id : String
  title : String
  word_count : Nat
  character_count : Nat
  created_at : String
deriving Repr, DecidableEq

/-- Embedding of `DocumentStore.list_all` (`document_store.py` lines
81-98): metadata only, no content, no mutation. -/
def Store.list_all (s : Store) : List DocumentMetadata :=
  s.documents.map (fun p => ⟨p.1, p.2.title, p.2.word_count, p.2.character_count, p.2.created_at⟩)

/-- Configured document-count limit, `settings.max_documents`
(`config.py` line 17). -/
def max_documents : Nat := 100

/-- Configured context-character budget, `settings.context_max_chars`
(`config.py` line 25). -/
def context_max_chars : Nat := 15000

/-- Configured model identifier, `settings.openai_model`
(`config.py` line 12). -/
def openai_model : String := "gpt-4o-mini"

/-- Full document detail as returned by `GET /documents/{id}`
(`models.py` `DocumentDetail`). -/
structure DocumentDetail where
  id : String
  title : String
  content : String
  word_count : Nat
  character_count : Nat
  created_at : String
deriving Repr, DecidableEq

/-- The full `AnswerResponse` of `models.py` lines 97-112.  The
`processing_time_ms` float is modelled as the externally measured elapsed
number of milliseconds; no claim performs arithmetic on it. -/
structure AnswerResponse where
  answer : String
  confidence : Confidence
  relevant_quotes : List String
  not_found : Bool
  document_title : String
  question : String
  model_used : String
  processing_time_ms : Nat
deriving Repr, DecidableEq

/-- Embedding of the `upload_document` handler body (`main.py` lines
78-107), entered after FastAPI request validation (a body outside the
declared bounds is rejected with 422 before this code runs).  If the store
already holds `max_documents` documents the request is rejected with 400
before any insertion; otherwise the document is added and its metadata
returned.  The `.error 500` branch mirrors the crash that a `None` from
`get` right after `add` would cause; it is unreachable. -/
def upload_document (s : Store) (gen_id content title created_at : String) :
    Except Nat DocumentMetadata × Store :=
  if max_documents ≤ s.count then
    (.error 400, s)
  else
    let r := s.add gen_id content title created_at
    match r.2.get r.1 with
    | some d => (.ok ⟨r.1, d.title, d.word_count, d.character_count, d.created_at⟩, r.2)
    | none => (.error 500, r.2)

/-- Embedding of the `get_document` handler (`main.py` lines 120-139). -/
def get_document (s : Store) (doc_id : String) : Except Nat DocumentDetail :=
  match s.get doc_id with
  | none => .error 404
  | some d => .ok ⟨doc_id, d.title, d.content, d.word_count, d.character_count, d.created_at⟩

/-- Embedding of the `delete_document` handler (`main.py` lines 142-153):
the store's `delete` runs first, a miss is reported as 404. -/
def delete_document (s : Store) (doc_id : String) : Except Nat String × Store :=
  let r := s.delete doc_id
  if r.1 then
    (.ok ("Document " ++ doc_id ++ " deleted successfully"), r.2)
  else
    (.error 404, r.2)

/-- Embedding of the `ask_question` handler (`main.py` lines 160-211): a
missing document is 404 before anything else; then the model call's
outcome is interpreted, with `ValueError` (malformed model output, or a
field failing `Confidence`/pydantic validation) surfaced as 422 and any
other exception as 500. -/
def ask_question (s : Store) (doc_id question : String) (llm : LlmOutcome)
    (elapsed_ms : Nat) : Except Nat AnswerResponse :=
  match s.get doc_id with
  | none => .error 404
  | some doc =>
      match llm with
      | .valueError => .error 422
      | .otherError => .error 500
      | .ok result =>
          match interpretFields result with
          | .error _ => .error 422
          | .ok f =>
              .ok { answer := f.answer
                    confidence := f.confidence
                    relevant_quotes := f.relevant_quotes
                    not_found := f.not_found
                    document_title := doc.title
                    question := question
                    model_used := openai_model
                    processing_time_ms := elapsed_ms }

/-- The fixed truncation suffix appended by `qa_service.answer_question`
line 98: a blank-line separator followed by the human-readable marker. -/
def truncationMarker : List Char :=
  "\n\n[... Document truncated for processing ...]".data

/-- Embedding of the context-window management block of
`QAService.answer_question` (`qa_service.py` lines 91-98): content longer
than the budget is cut to its first `limit` characters and the truncation
marker is appended; content within the budget is returned unchanged.  The
limit is `settings.context_max_chars` at the call site and is kept as a
parameter here. -/
def reduceContext (content : List Char) (limit : Nat) : List Char :=
  if limit < content.length then content.take limit ++ truncationMarker
  else content

/-- Embedding of the prompt construction of `QAService.answer_question`
(`qa_service.py` lines 104-112): the exact f-string concatenation, with
title, content and question interpolated verbatim. -/
def buildPrompt (document_title document_content question : String) : String :=
  "=== DOCUMENT TITLE: " ++ document_title ++ " ===\n\n"
    ++ document_content ++ "\n\n"
    ++ "=== END OF DOCUMENT ===\n\n"
    ++ "=== QUESTION ===\n"
    ++ question ++ "\n"
    ++ "=== END OF QUESTION ===\n\n"
    ++ "Answer the question using ONLY the document above."

/-
Helper lemmas shared by several theorems below.
-/

/-- A dict-style lookup misses exactly when the membership test (`in`) on
the same key fails. -/
theorem lookup_eq_none_iff_any_false (l : List (String × StoredDoc)) (k : String) :
    l.lookup k = none ↔ l.any (fun p => p.1 == k) = false := by
  induction l with
  | nil => simp
  | cons p t ih =>
      obtain ⟨a, d⟩ := p
      by_cases h : k = a
      · subst h
        simp [List.lookup]
      · have h1 : (k == a) = false := by simp [h]
        have h2 : (a == k) = false := by simp [Ne.symm h]
        simp [List.lookup, h1, h2, ih]

/-- A present id yields a document from `get`. -/
theorem get_isSome_of_hasId (s : Store) (doc_id : String) (h : s.hasId doc_id = true) :
    ∃ d, s.get doc_id = some d := by
  cases hx : s.get doc_id with
  | some d => exact ⟨d, rfl⟩
  | none =>
      have hf : s.hasId doc_id = false :=
        (lookup_eq_none_iff_any_false s.documents doc_id).mp hx
      rw [hf] at h
      cases h

/-- Membership in a dict insertion: every entry either was already present
or is the inserted pair. -/
theorem mem_dictInsert {l : List (String × StoredDoc)} {k : String} {v : StoredDoc}
    {p : String × StoredDoc} (hp : p ∈ dictInsert l k v) : p ∈ l ∨ p = (k, v) := by
  unfold dictInsert at hp
  by_cases h : (l.any fun q => q.1 == k) = true
  · rw [if_pos h] at hp
    obtain ⟨q, hq, hqe⟩ := List.mem_map.mp hp
    by_cases h2 : (q.1 == k) = true
    · right
      rw [if_pos h2] at hqe
      exact hqe.symm
    · left
      rw [if_neg h2] at hqe
      rwa [hqe] at hq
  · rw [if_neg h] at hp
    rcases List.mem_append.mp hp with h1 | h1
    · exact .inl h1
    · right
      simpa using h1

/-
Claim theorems.
-/

/-- C4 (confirmed): for every content string and every limit with
`len(content) <= limit`, the context reducer of `QAService.answer_question`
returns the content unchanged. -/
theorem reduce_identity_within_limit (content : List Char) (limit : Nat)
    (h : content.length ≤ limit) : reduceContext content limit = content := by
  unfold reduceContext
  rw [if_neg (by omega)]

/-- Witness for C4: a fourteen-character report is far below the
15000-character budget and is returned untouched. -/
theorem reduce_identity_within_limit_witness :
    reduceContext "a short report".data context_max_chars = "a short report".data :=
  reduce_identity_within_limit "a short report".data context_max_chars (by decide)

/-- C5 (confirmed): for content longer than the limit, the reduced content
has length exactly `limit + len(marker)`, starts with the first `limit`
characters of the original, and the fixed marker is appended after a
blank-line separator (the marker string begins with the blank line and is
otherwise the fixed human-readable text). -/
theorem reduce_truncation_shape (content : List Char) (limit : Nat)
    (h : limit < content.length) :
    (reduceContext content limit).length = limit + truncationMarker.length
    ∧ (reduceContext content limit).take limit = content.take limit
    ∧ truncationMarker =
        '\n' :: '\n' :: "[... Document truncated for processing ...]".data := by
  have hlen : (content.take limit).length = limit := by
    simp only [List.length_take]
    omega
  refine ⟨?_, ?_, rfl⟩
  · unfold reduceContext
    rw [if_pos h]
    simp [hlen]
  · unfold reduceContext
    rw [if_pos h, List.take_left' hlen]

/-- Witness for C5: an eight-character content truncated to five characters
carries the marker and keeps its first five characters. -/
theorem reduce_truncation_shape_witness :
    (reduceContext "abcdefgh".data 5).length = 5 + truncationMarker.length
    ∧ (reduceContext "abcdefgh".data 5).take 5 = "abcdefgh".data.take 5
    ∧ truncationMarker =
        '\n' :: '\n' :: "[... Document truncated for processing ...]".data :=
  reduce_truncation_shape "abcdefgh".data 5 (by decide)

/-- C6 (confirmed): when the store already holds at least
`settings.max_documents` documents, `upload_document` answers 400 and the
store is returned exactly as it was — the rejection happens before any
insertion. -/
theorem upload_rejected_at_limit (s : Store) (gen_id content title created_at : String)
    (h : max_documents ≤ s.count) :
    upload_document s gen_id content title created_at = (.error 400, s) := by
  unfold upload_document
  rw [if_pos h]

/-- A store holding exactly `max_documents` documents. -/
def storeFull : Store :=
  ⟨(List.range max_documents).map
    (fun i => (toString i, mkDoc "document body text" "Bulk" "2025-06-01T00:00:00"))⟩

/-- Witness for C6: uploading into a store with 100 documents is rejected
with 400 and the store is unchanged. -/
theorem upload_rejected_at_limit_witness :
    max_documents ≤ storeFull.count
    ∧ upload_document storeFull "newid123" "some new content" "New" "ts"
        = (.error 400, storeFull) :=
  ⟨by decide,
   upload_rejected_at_limit storeFull "newid123" "some new content" "New" "ts" (by decide)⟩

/-- Opening delimiter of the document-title section. -/
def docTitleDelimOpen : String := "=== DOCUMENT TITLE: "

/-- Closing delimiter of the document-title section, ending in a blank
line. -/
def docTitleDelimClose : String := " ===\n\n"

/-- The blank-line separator between the document body and the
end-of-document marker. -/
def blankLine : String := "\n\n"

/-- The end-of-document marker line. -/
def endOfDocumentMarker : String := "=== END OF DOCUMENT ===\n\n"

/-- Opening delimiter of the question section. -/
def questionDelimOpen : String := "=== QUESTION ===\n"

/-- The newline separating the question from the end-of-question marker. -/
def newlineStr : String := "\n"

/-- The end-of-question marker line. -/
def endOfQuestionMarker : String := "=== END OF QUESTION ===\n\n"

/-- The final grounding instruction. -/
def groundingInstruction : String := "Answer the question using ONLY the document above."

/-- C7 (confirmed): the built prompt is a single text block consisting, in
order, of the delimited document-title section, the document body, the
end-of-document marker, the delimited question section, the end-of-question
marker, and the instruction to answer only from the document above; the
title, content and question are embedded verbatim with no escaping. -/
theorem prompt_sections_in_order (t c q : String) :
    buildPrompt t c q =
      docTitleDelimOpen ++ t ++ docTitleDelimClose
        ++ c ++ blankLine ++ endOfDocumentMarker
        ++ questionDelimOpen ++ q ++ newlineStr ++ endOfQuestionMarker
        ++ groundingInstruction := by
  simp only [buildPrompt, docTitleDelimOpen, docTitleDelimClose, blankLine,
    endOfDocumentMarker, questionDelimOpen, newlineStr, endOfQuestionMarker,
    groundingInstruction, String.append_assoc]

/-- A store with a single document, used as a concrete state below. -/
def storeOne : Store :=
  ⟨[("0a1b2c3d", mkDoc "original content here" "Original" "2025-06-01T00:00:00")]⟩

/-- C8 (confirmed): an id absent from the store makes `GET /documents/{id}`,
`DELETE /documents/{id}` and `POST /documents/{id}/ask` answer 404;
`DocumentStore.get` returns `None` exactly when the id is absent;
`DocumentStore.delete` returns `False` and leaves the store untouched
exactly when the id is absent, and returns `True` and removes the entry
when it is present. -/
theorem absent_id_semantics (s : Store) (doc_id question : String)
    (llm : LlmOutcome) (elapsed : Nat) :
    (s.get doc_id = none ↔ s.hasId doc_id = false)
    ∧ (s.hasId doc_id = false → s.delete doc_id = (false, s))
    ∧ (s.hasId doc_id = true →
        (s.delete doc_id).1 = true ∧ (s.delete doc_id).2.hasId doc_id = false)
    ∧ (s.hasId doc_id = false →
        get_document s doc_id = .error 404
        ∧ delete_document s doc_id = (.error 404, s)
        ∧ ask_question s doc_id question llm elapsed = .error 404) := by
  have hiff := lookup_eq_none_iff_any_false s.documents doc_id
  have hdel : s.hasId doc_id = false → s.delete doc_id = (false, s) := by
    intro h
    unfold Store.hasId at h
    unfold Store.delete
    rw [if_neg (by simp [h])]
  refine ⟨hiff, hdel, ?_, ?_⟩
  · intro h
    unfold Store.hasId at h
    constructor
    · unfold Store.delete
      rw [if_pos h]
    · unfold Store.delete
      rw [if_pos h]
      unfold Store.hasId
      simp only [List.any_eq_false, List.mem_filter]
      rintro p ⟨-, hne⟩
      simpa using hne
  · intro h
    have hget : s.get doc_id = none := hiff.mpr h
    refine ⟨?_, ?_, ?_⟩
    · unfold get_document
      rw [hget]
    · simp [delete_document, hdel h]
    · unfold ask_question
      rw [hget]

/-- Witness for C8: in a one-document store, a missing id gives `None`,
`False` and 404 everywhere, while the present id is deleted with `True` and
is gone afterwards. -/
theorem absent_id_semantics_witness :
    storeOne.delete "missing99" = (false, storeOne)
    ∧ get_document storeOne "missing99" = .error 404
    ∧ delete_document storeOne "missing99" = (.error 404, storeOne)
    ∧ ask_question storeOne "missing99" "What is this?" .otherError 1 = .error 404
    ∧ (storeOne.delete "0a1b2c3d").1 = true
    ∧ (storeOne.delete "0a1b2c3d").2.hasId "0a1b2c3d" = false := by
  have h1 := absent_id_semantics storeOne "missing99" "What is this?" .otherError 1
  have h2 := absent_id_semantics storeOne "0a1b2c3d" "What is this?" .otherError 1
  have ha : storeOne.hasId "missing99" = false := by decide
  have hb : storeOne.hasId "0a1b2c3d" = true := by decide
  exact ⟨h1.2.1 ha, (h1.2.2.2 ha).1, (h1.2.2.2 ha).2.1, (h1.2.2.2 ha).2.2,
    (h2.2.2.1 hb).1, (h2.2.2.1 hb).2⟩

/-- C9 counterexample: `DocumentStore.add` assigns the truncated-uuid id
with no collision check, so a generated id equal to one already present
silently overwrites the stored document: the count does not grow and the
original content is replaced.  This refutes the claim that `add` always
assigns an id distinct from every id currently present. -/
theorem add_colliding_id_overwrites_cex :
    (storeOne.add "0a1b2c3d" "replacement body" "Replaced" "ts2").2.count = storeOne.count
    ∧ (storeOne.add "0a1b2c3d" "replacement body" "Replaced" "ts2").2.get_content "0a1b2c3d"
        = some "replacement body"
    ∧ storeOne.get_content "0a1b2c3d" = some "original content here" :=
  ⟨rfl, rfl, rfl⟩

/-- C9 (corrected): the generated id is produced independently of the
store's contents and is not checked against it; whenever the generated id
is not already present — which the code does not guarantee — `add` appends
a fresh entry, returns that id, and leaves every existing document (and its
id) unchanged. -/
theorem add_fresh_id_appends (s : Store) (gen_id content title created_at : String)
    (h : s.hasId gen_id = false) :
    (s.add gen_id content title created_at).1 = gen_id
    ∧ (s.add gen_id content title created_at).2.documents
        = s.documents ++ [(gen_id, mkDoc content title created_at)] := by
  unfold Store.hasId at h
  refine ⟨rfl, ?_⟩
  unfold Store.add dictInsert
  rw [if_neg (by simp [h])]

/-- Witness for C9's amended statement: adding under a fresh id appends and
keeps the existing entry intact. -/
theorem add_fresh_id_appends_witness :
    storeOne.hasId "deadbeef" = false
    ∧ (storeOne.add "deadbeef" "fresh body" "Fresh" "ts3").1 = "deadbeef"
    ∧ (storeOne.add "deadbeef" "fresh body" "Fresh" "ts3").2.documents
        = storeOne.documents ++ [("deadbeef", mkDoc "fresh body" "Fresh" "ts3")] := by
  have h : storeOne.hasId "deadbeef" = false := by decide
  have hmain := add_fresh_id_appends storeOne "deadbeef" "fresh body" "Fresh" "ts3" h
  exact ⟨h, hmain.1, hmain.2⟩

/-- Store states reachable from the freshly initialized store by the
repository's mutating operations (`add` and `delete`; `get`, `get_content`,
`list_all` and `count` perform no assignment and are pure functions of the
state in this embedding, mirroring that the Python methods never write to a
stored document's fields). -/
inductive Reachable : Store → Prop where
  | init : Reachable ⟨[]⟩
  | push (s : Store) (gen_id content title created_at : String) :
      Reachable s → Reachable (s.add gen_id content title created_at).2
  | drop (s : Store) (doc_id : String) :
      Reachable s → Reachable (s.delete doc_id).2

/-- Every stored document's derived counts agree with its content. -/
def countsConsistent (s : Store) : Prop :=
  ∀ p ∈ s.documents,
    p.2.character_count = p.2.content.length
    ∧ p.2.word_count = (pySplit p.2.content).length

/-- C10 (confirmed): in every reachable store state, every stored document
satisfies `character_count = len(content)` and
`word_count = len(content.split())` — `add` establishes the derived fields
from its content argument and no store operation rewrites them
afterwards. -/
theorem derived_counts_invariant (s : Store) (h : Reachable s) : countsConsistent s := by
  induction h with
  | init =>
      intro p hp
      cases hp
  | push s gid c t ts hs ih =>
      intro p hp
      rcases mem_dictInsert hp with h1 | h1
      · exact ih p h1
      · subst h1
        exact ⟨rfl, rfl⟩
  | drop s did hs ih =>
      intro p hp
      apply ih
      unfold Store.delete at hp
      by_cases hc : (s.documents.any fun q => q.1 == did) = true
      · rw [if_pos hc] at hp
        exact (List.mem_filter.mp hp).1
      · rw [if_neg hc] at hp
        exact hp

/-- Witness for C10: the store reached by one `add` on the empty store
satisfies the derived-count invariant. -/
theorem derived_counts_invariant_witness :
    countsConsistent (Store.add ⟨[]⟩ "11aa22bb" "hello brave world" "T" "ts").2 :=
  derived_counts_invariant _
    (Reachable.push ⟨[]⟩ "11aa22bb" "hello brave world" "T" "ts" Reachable.init)

/-- The enum member whose string value we start from converts back to
itself (`Confidence(member.value) == member`). -/
theorem confidenceOfJson_toString (c : Confidence) :
    confidenceOfJson (Json.str c.toString) = some c := by
  cases c <;> rfl

/-- A list of JSON strings validates to the underlying strings. -/
theorem strList_map_str (qs : List String) :
    strList (qs.map Json.str) = some qs := by
  induction qs with
  | nil => rfl
  | cons h t ih => simp [strList, pydanticStr, ih]

/-- Evaluation lemma for `interpretFields`: once each extracted slot is
known to be legal, the interpretation succeeds with exactly those
values. -/
theorem interpretFields_reduce_ok (m : List (String × Json)) (ans : String)
    (c : Confidence) (qs : List String) (nf : Bool)
    (ha : (m.lookup "answer").getD (Json.str "Unable to generate answer") = Json.str ans)
    (hc : confidenceOfJson ((m.lookup "confidence").getD (Json.str "low")) = some c)
    (hq : pydanticStrList ((m.lookup "relevant_quotes").getD (Json.arr [])) = some qs)
    (hn : (m.lookup "not_found").getD (Json.bool false) = Json.bool nf) :
    interpretFields m = .ok ⟨ans, c, qs, nf⟩ := by
  unfold interpretFields
  rw [hc, ha, hq, hn]
  rfl

/-- C1 counterexample: the claim fails on the code in two places.  An
`answer` present as the empty string is returned as the empty string, not
replaced by the generic message; and a `confidence` present with a value
outside {high, medium, low} is not replaced by `low` — the `Confidence`
conversion raises `ValueError`, so the interpretation does fail on such an
input. -/
theorem interpret_replaces_illegal_cex :
    interpretFields [("answer", Json.str ""), ("confidence", Json.str "low"),
        ("relevant_quotes", Json.arr []), ("not_found", Json.bool false)]
      = .ok ⟨"", .low, [], false⟩
    ∧ interpretFields [("answer", Json.str "An answer"), ("confidence", Json.str "certain"),
        ("relevant_quotes", Json.arr []), ("not_found", Json.bool false)]
      = .error "ValueError: not a valid Confidence" :=
  ⟨rfl, rfl⟩

/-- C1 (corrected): the defaults are applied only to absent fields — on the
empty mapping the interpretation yields the generic answer, `low`, the
empty quote list and `False`; a `confidence` present with a value outside
the three allowed values makes the interpretation fail with `ValueError`
(surfaced as 422) instead of being replaced by `low`; and an `answer`
present as the empty string is returned unchanged, not replaced by the
generic message. -/
theorem interpret_defaults_only_for_absent (ans conf : String) (qs : List Json) (nf : Bool)
    (hconf : conf ∉ (["high", "medium", "low"] : List String)) :
    interpretFields [] = .ok ⟨"Unable to generate answer", .low, [], false⟩
    ∧ (∃ e, interpretFields [("answer", Json.str ans), ("confidence", Json.str conf),
        ("relevant_quotes", Json.arr qs), ("not_found", Json.bool nf)] = .error e)
    ∧ interpretFields [("answer", Json.str "")] = .ok ⟨"", .low, [], false⟩ := by
  refine ⟨rfl, ⟨"ValueError: not a valid Confidence", ?_⟩, rfl⟩
  have h1 : ¬ conf = "high" := fun h => hconf (by rw [h]; simp)
  have h2 : ¬ conf = "medium" := fun h => hconf (by rw [h]; simp)
  have h3 : ¬ conf = "low" := fun h => hconf (by rw [h]; simp)
  have hc : confidenceOfJson (Json.str conf) = none := by
    show (if conf = "high" then some Confidence.high
      else if conf = "medium" then some Confidence.medium
      else if conf = "low" then some Confidence.low else none) = none
    rw [if_neg h1, if_neg h2, if_neg h3]
  unfold interpretFields
  rw [show (List.lookup "confidence"
      [("answer", Json.str ans), ("confidence", Json.str conf),
       ("relevant_quotes", Json.arr qs), ("not_found", Json.bool nf)]).getD (Json.str "low")
      = Json.str conf from rfl, hc]

/-- Witness for C1's amended statement at the illegal value "certain". -/
theorem interpret_defaults_only_for_absent_witness :
    "certain" ∉ (["high", "medium", "low"] : List String)
    ∧ (interpretFields [] = .ok ⟨"Unable to generate answer", .low, [], false⟩
       ∧ (∃ e, interpretFields [("answer", Json.str "An answer"),
            ("confidence", Json.str "certain"), ("relevant_quotes", Json.arr []),
            ("not_found", Json.bool false)] = .error e)
       ∧ interpretFields [("answer", Json.str "")] = .ok ⟨"", .low, [], false⟩) :=
  ⟨by decide, interpret_defaults_only_for_absent "An answer" "certain" [] false (by decide)⟩

/-- C3 (confirmed): a mapping missing exactly `confidence`,
`relevant_quotes` or `not_found` (the other fields present with legal
values) is interpreted with `low`, `[]` and `False` respectively in the
missing slot, while every present legal field is returned unchanged; a
mapping with all four fields legal is returned entirely unchanged. -/
theorem interpret_missing_field_defaults (ans : String) (c : Confidence)
    (qs : List String) (nf : Bool) :
    interpretFields [("answer", Json.str ans),
        ("relevant_quotes", Json.arr (qs.map Json.str)), ("not_found", Json.bool nf)]
      = .ok ⟨ans, .low, qs, nf⟩
    ∧ interpretFields [("answer", Json.str ans), ("confidence", Json.str c.toString),
        ("not_found", Json.bool nf)]
      = .ok ⟨ans, c, [], nf⟩
    ∧ interpretFields [("answer", Json.str ans), ("confidence", Json.str c.toString),
        ("relevant_quotes", Json.arr (qs.map Json.str))]
      = .ok ⟨ans, c, qs, false⟩
    ∧ interpretFields [("answer", Json.str ans), ("confidence", Json.str c.toString),
        ("relevant_quotes", Json.arr (qs.map Json.str)), ("not_found", Json.bool nf)]
      = .ok ⟨ans, c, qs, nf⟩ := by
  refine ⟨?_, ?_, ?_, ?_⟩
  · exact interpretFields_reduce_ok _ ans .low qs nf rfl rfl (strList_map_str qs) rfl
  · exact interpretFields_reduce_ok _ ans c [] nf rfl (confidenceOfJson_toString c) rfl rfl
  · exact interpretFields_reduce_ok _ ans c qs false rfl (confidenceOfJson_toString c)
      (strList_map_str qs) rfl
  · exact interpretFields_reduce_ok _ ans c qs nf rfl (confidenceOfJson_toString c)
      (strList_map_str qs) rfl

/-- A field slot is acceptable when it is absent or its value passes the
given validator. -/
def legalJsonOpt (check : Json → Bool) : Option Json → Bool
  | none => true
  | some v => check v

/-- A decoded mapping in which each of the four expected fields is absent
or carries a legal value. -/
def mappingOk (m : List (String × Json)) : Bool :=
  legalJsonOpt (fun v => (pydanticStr v).isSome) (m.lookup "answer")
    && legalJsonOpt (fun v => (confidenceOfJson v).isSome) (m.lookup "confidence")
    && legalJsonOpt (fun v => (pydanticStrList v).isSome) (m.lookup "relevant_quotes")
    && legalJsonOpt (fun v => (pydanticBool v).isSome) (m.lookup "not_found")

/-- Missing fields never make the interpretation fail: any mapping whose
present fields are legal interprets successfully. -/
theorem interpretFields_ok_of_mappingOk (m : List (String × Json))
    (h : mappingOk m = true) : ∃ f, interpretFields m = .ok f := by
  unfold mappingOk at h
  rw [Bool.and_eq_true, Bool.and_eq_true, Bool.and_eq_true] at h
  obtain ⟨⟨⟨h1, h2⟩, h3⟩, h4⟩ := h
  have hc : (confidenceOfJson ((m.lookup "confidence").getD (Json.str "low"))).isSome = true := by
    cases hx : m.lookup "confidence" with
    | none => rfl
    | some v =>
        rw [hx] at h2
        simpa [legalJsonOpt] using h2
  have ha : (pydanticStr ((m.lookup "answer").getD
      (Json.str "Unable to generate answer"))).isSome = true := by
    cases hx : m.lookup "answer" with
    | none => rfl
    | some v =>
        rw [hx] at h1
        simpa [legalJsonOpt] using h1
  have hq : (pydanticStrList ((m.lookup "relevant_quotes").getD (Json.arr []))).isSome = true := by
    cases hx : m.lookup "relevant_quotes" with
    | none => rfl
    | some v =>
        rw [hx] at h3
        simpa [legalJsonOpt] using h3
  have hn : (pydanticBool ((m.lookup "not_found").getD (Json.bool false))).isSome = true := by
    cases hx : m.lookup "not_found" with
    | none => rfl
    | some v =>
        rw [hx] at h4
        simpa [legalJsonOpt] using h4
  obtain ⟨cc, hcc⟩ := Option.isSome_iff_exists.mp hc
  obtain ⟨aa, haa⟩ := Option.isSome_iff_exists.mp ha
  obtain ⟨qq, hqq⟩ := Option.isSome_iff_exists.mp hq
  obtain ⟨bb, hbb⟩ := Option.isSome_iff_exists.mp hn
  refine ⟨⟨aa, cc, qq, bb⟩, ?_⟩
  unfold interpretFields
  rw [hcc, haa, hqq, hbb]

/-- C2 counterexample: a raw output that parses perfectly well — all four
fields present, everything a legal JSON value except that `confidence` is
the string "certain" — still makes the request fail with 422.  The
interpretation therefore does not raise only for an entirely unparseable
output. -/
theorem interpret_error_only_unparseable_cex :
    ask_question storeOne "0a1b2c3d" "What is the total?"
      (.ok [("answer", Json.str "An answer"), ("confidence", Json.str "certain"),
            ("relevant_quotes", Json.arr []), ("not_found", Json.bool false)]) 5
      = .error 422 :=
  rfl

/-- C2 (corrected): for a document present in the store, an unparseable
model output (the `MalformedResponse` `ValueError` from the parse step) is
surfaced as 422; any other model-call failure is surfaced as the distinct
500; a parsed mapping whose present fields are all legal — in particular
one with any of the four fields merely missing — never raises and yields a
complete answer; but a parseable output can also be surfaced as 422 when a
present field fails validation. -/
theorem ask_error_channels (s : Store) (doc_id question : String) (elapsed : Nat)
    (m : List (String × Json)) (hdoc : s.hasId doc_id = true) (hm : mappingOk m = true) :
    ask_question s doc_id question .valueError elapsed = .error 422
    ∧ ask_question s doc_id question .otherError elapsed = .error 500
    ∧ ∃ r, ask_question s doc_id question (.ok m) elapsed = .ok r := by
  obtain ⟨d, hd⟩ := get_isSome_of_hasId s doc_id hdoc
  obtain ⟨f, hf⟩ := interpretFields_ok_of_mappingOk m hm
  refine ⟨?_, ?_, ?_⟩
  · unfold ask_question
    rw [hd]
  · unfold ask_question
    rw [hd]
  · refine ⟨{ answer := f.answer
              confidence := f.confidence
              relevant_quotes := f.relevant_quotes
              not_found := f.not_found
              document_title := d.title
              question := question
              model_used := openai_model
              processing_time_ms := elapsed }, ?_⟩
    simp [ask_question, hd, hf]

/-- Witness for C2's amended statement: on the one-document store, the
malformed-output channel gives 422, the generic-failure channel gives 500,
and the empty mapping (all four fields missing) succeeds. -/
theorem ask_error_channels_witness :
    ask_question storeOne "0a1b2c3d" "What is the content?" .valueError 3 = .error 422
    ∧ ask_question storeOne "0a1b2c3d" "What is the content?" .otherError 3 = .error 500
    ∧ ∃ r, ask_question storeOne "0a1b2c3d" "What is the content?" (.ok []) 3 = .ok r :=
  ask_error_channels storeOne "0a1b2c3d" "What is the content?" 3 [] (by decide) rfl

end DocQA
